import Mathlib

/-!
Shallow embedding of the esp32_interfaces repository: the pin role allocator
(esp32_ble/src/bin/main.rs), the shared pin state store and the polling tasks
(esp32_ble/src/pin.rs), the GATT command handler (esp32_ble/src/ble.rs), and
the network bridge handlers (esp32_wifi/src/web.rs).  Machine integers are
modelled as natural numbers (or integers for the signed wifi slots) with
explicit wrap-around where the Rust code can truncate.  Outcomes of external
library calls that the embedded code merely branches on (UTF-8 validation,
JSON decoding, one ADC conversion) are modelled as input data mirroring the
exact branch structure of the source.
-/

namespace Esp32

/-- Electrical pin level (esp_hal gpio Level). -/
inductive Level where
  | low
  | high
deriving DecidableEq

/-- The six shared state slots of esp32_ble/src/pin.rs lines 18-23: one
AtomicU32 per hardware pin number 14, 26, 25, 32, 35, 33.  Every store the
embedded code performs writes a value below 2 ^ 32 (u8 or u16 widened), so
plain naturals model the u32 cells faithfully. -/
structure Store where
  GPIO14_STATE : ℕ
  GPIO26_STATE : ℕ
  GPIO25_STATE : ℕ
  GPIO32_STATE : ℕ
  GPIO35_STATE : ℕ
  GPIO33_STATE : ℕ
deriving DecidableEq

/-- All slots start at 0 (AtomicU32 new 0). -/
def initStore : Store := ⟨0, 0, 0, 0, 0, 0⟩

/-- Pin numbers wirable as digital or PWM outputs and digital inputs: the
match arms 14, 26, 25, 33 of main.rs (lines 98-111, 122-127, 161-174). -/
def out_supported (n : ℕ) : Bool := n == 14 || n == 26 || n == 25 || n == 33

/-- Pin numbers wirable to the analog converter: match arms 32 and 35 of
main.rs lines 195-214. -/
def adc_supported (n : ℕ) : Bool := n == 32 || n == 35

/-- The start-up pool of peripheral handles: main.rs lines 86-91 wraps
GPIO14, GPIO26, GPIO25, GPIO32, GPIO35, GPIO33 in Some. -/
def initial_avail (n : ℕ) : Bool :=
  n == 14 || n == 26 || n == 25 || n == 32 || n == 35 || n == 33

/-- Claiming a pin: Option.take leaves None behind for pin n. -/
def take_pin (avail : ℕ → Bool) (n : ℕ) : ℕ → Bool :=
  fun m => if m = n then false else avail m

/-- One role allocation loop of main.rs: for each requested pin number, if the
number is wirable for this role and its handle is still in the pool, claim the
handle and append a task item; otherwise skip silently.  Returns the ordered
task item pin numbers and the remaining pool. -/
def alloc_role (supported : ℕ → Bool) : List ℕ → (ℕ → Bool) → List ℕ × (ℕ → Bool)
  | [], avail => ([], avail)
  | n :: rest, avail =>
    if supported n && avail n then
      (n :: (alloc_role supported rest (take_pin avail n)).1,
        (alloc_role supported rest (take_pin avail n)).2)
    else
      alloc_role supported rest avail

/-- The start-up configuration record of main.rs lines 45-52. -/
structure Config where
  bluetooth_name : String
  basic_write_pin_nums : List ℕ
  pwm_write_pin_nums : List ℕ
  basic_read_pin_nums : List ℕ
  adc_read_pin_nums : List ℕ

/-- First processed role (main.rs lines 93-116): digital outputs. -/
def stage_basic_write (cfg : Config) : List ℕ × (ℕ → Bool) :=
  alloc_role out_supported cfg.basic_write_pin_nums initial_avail

/-- Second processed role (main.rs lines 118-132): digital inputs. -/
def stage_basic_read (cfg : Config) : List ℕ × (ℕ → Bool) :=
  alloc_role out_supported cfg.basic_read_pin_nums (stage_basic_write cfg).2

/-- Third processed role (main.rs lines 158-190): PWM outputs. -/
def stage_pwm_write (cfg : Config) : List ℕ × (ℕ → Bool) :=
  alloc_role out_supported cfg.pwm_write_pin_nums (stage_basic_read cfg).2

/-- Fourth processed role (main.rs lines 192-219): analog inputs. -/
def stage_adc_read (cfg : Config) : List ℕ × (ℕ → Bool) :=
  alloc_role adc_supported cfg.adc_read_pin_nums (stage_pwm_write cfg).2

/-- The four task item lists produced at start-up, in processing order.  The
pin numbers of a task item list are exactly the pins active in that role. -/
structure Allocation where
  basic_write_pins : List ℕ
  basic_read_pins : List ℕ
  pwm_write_pins : List ℕ
  adc_read_pins : List ℕ

/-- The whole allocator of main.rs lines 86-219. -/
def allocate (cfg : Config) : Allocation :=
  ⟨(stage_basic_write cfg).1, (stage_basic_read cfg).1,
    (stage_pwm_write cfg).1, (stage_adc_read cfg).1⟩

/-- A configuration requesting pin 14 for three roles at once and pin 32 for
the analog role; used to exercise the allocator on a concrete input. -/
def dup_pin_config : Config := ⟨"dev", [14], [14], [14], [32]⟩

/-- One entry of a pin-write batch (ble.rs lines 27-31 and web.rs lines
16-20); both fields are u8 in the source. -/
structure PinWriteItem where
  pin_num : ℕ
  state : ℕ
deriving DecidableEq

/-- A decoded command payload (ble.rs lines 22-25 and web.rs lines 11-14).
The pin_writes field is an alloc Vec, so its length is unbounded. -/
structure PinRequest where
  pin_writes : List PinWriteItem
deriving DecidableEq

/-- One store mutation of the BLE command handler (ble.rs lines 190-200):
the u8 state is widened to u32, value preserving. -/
def ble_store_pin_write (s : Store) (it : PinWriteItem) : Store :=
  if it.pin_num = 14 then { s with GPIO14_STATE := it.state }
  else if it.pin_num = 26 then { s with GPIO26_STATE := it.state }
  else if it.pin_num = 25 then { s with GPIO25_STATE := it.state }
  else if it.pin_num = 33 then { s with GPIO33_STATE := it.state }
  else s

/-- The for_each over pin_writes of ble.rs lines 187-201, applied in order. -/
def ble_write_pins (s : Store) : List PinWriteItem → Store
  | [] => s
  | it :: rest => ble_write_pins (ble_store_pin_write s it) rest

/-- The outcome of decoding a GATT write payload, as the handler observes it
from core str from_utf8 and serde_json_core (ble.rs lines 177-181). -/
inductive GattWritePayload where
  | notUtf8
  | badJson
  | parsed (req : PinRequest)
deriving DecidableEq

/-- Which characteristic handle a GATT read event matches in the if chain of
ble.rs lines 148 and 161: the pin_data_output handle, the adc_data_output
handle, or some other handle (for which neither branch runs). -/
inductive ReadTarget where
  | pinDataOutput
  | adcDataOutput
  | otherHandle
deriving DecidableEq

/-- One connection event as matched by gatt_events_task (ble.rs lines
136-221).  A read event carries the matched characteristic handle and the
outcome of the external attribute-table lookup server dot get performed for
it (ble.rs lines 149 and 162); the outcome flag is ignored for otherHandle,
where no lookup happens.  gattUnknown is the inner wildcard arm for GATT
events that are neither read nor write; otherEvent is the outer wildcard for
non-GATT connection events. -/
inductive GattConnectionEvent where
  | disconnected (reason : ℕ)
  | gattRead (target : ReadTarget) (get_ok : Bool)
  | gattWrite (payload : GattWritePayload)
  | gattUnknown
  | otherEvent
deriving DecidableEq

/-- How one iteration of the event loop of gatt_events_task ends.  next
carries the store after the iteration and the number of explicit
acknowledgments the task issues for the event (the accept and send at ble.rs
lines 212-218) before the loop continues; disconnect is the break on a
Disconnected event (the task returns Ok); errorReturn is the early return of
the question-mark operator on a failed attribute-table lookup (ble.rs lines
149 and 162), which ends the task with an error before any acknowledgment;
halted is the panic at ble.rs line 203 on a non-UTF-8 write payload. -/
inductive GattStep where
  | next (s : Store) (acks : ℕ)
  | disconnect (s : Store)
  | errorReturn (s : Store)
  | halted
deriving DecidableEq

/-- Whether an event is an incoming GATT read or write. -/
def is_gatt_read_write : GattConnectionEvent → Bool
  | .gattRead _ _ => true
  | .gattWrite _ => true
  | _ => false

/-- Whether an event is a write whose payload is valid UTF-8 but fails JSON
parsing. -/
def is_bad_json_write : GattConnectionEvent → Bool
  | .gattWrite .badJson => true
  | _ => false

/-- Whether an event is a read whose attribute-table lookup fails, making
the question-mark operator at ble.rs line 149 or 162 exit the task. -/
def is_failed_get_read : GattConnectionEvent → Bool
  | .gattRead .pinDataOutput false => true
  | .gattRead .adcDataOutput false => true
  | _ => false

/-- Whether an event is a write whose payload is not valid UTF-8. -/
def is_not_utf8_write : GattConnectionEvent → Bool
  | .gattWrite .notUtf8 => true
  | _ => false

/-- One iteration of the event loop of gatt_events_task (ble.rs lines
135-222).  A successful read logs the looked-up characteristic value and
never touches the pin store; a failed lookup exits the task via the
question-mark operator before reaching the accept (errorReturn).  The
continue at line 183 on a JSON parse failure jumps to the next iteration
before reaching the accept, so that path issues 0 acknowledgments; a
non-UTF-8 write payload panics (halted). -/
def gatt_events_step (s : Store) : GattConnectionEvent → GattStep
  | .disconnected _ => .disconnect s
  | .gattRead .pinDataOutput true => .next s 1
  | .gattRead .pinDataOutput false => .errorReturn s
  | .gattRead .adcDataOutput true => .next s 1
  | .gattRead .adcDataOutput false => .errorReturn s
  | .gattRead .otherHandle _ => .next s 1
  | .gattWrite .notUtf8 => .halted
  | .gattWrite .badJson => .next s 0
  | .gattWrite (.parsed req) => .next (ble_write_pins s req.pin_writes) 1
  | .gattUnknown => .next s 1
  | .otherEvent => .next s 0

/-- A pin-write batch with nine entries, one more than the documented maximum
of eight (comment on ble.rs line 24). -/
def nine_writes : List PinWriteItem :=
  [⟨14, 1⟩, ⟨14, 2⟩, ⟨14, 3⟩, ⟨14, 4⟩, ⟨14, 5⟩, ⟨14, 6⟩, ⟨14, 7⟩, ⟨14, 8⟩, ⟨14, 9⟩]

/-- The six state slots of the esp32_wifi crate.  Its pin module is not under
src, but web.rs stores item.state as i32 into them and loads them as i32, so
the slots are signed 32-bit cells; all values the handlers store are u8
widened to i32, value preserving. -/
structure WifiStore where
  GPIO14_STATE : ℤ
  GPIO26_STATE : ℤ
  GPIO25_STATE : ℤ
  GPIO32_STATE : ℤ
  GPIO35_STATE : ℤ
  GPIO33_STATE : ℤ
deriving DecidableEq

/-- All wifi slots start at 0. -/
def initWifiStore : WifiStore := ⟨0, 0, 0, 0, 0, 0⟩

/-- One store mutation of write_pins_handler (web.rs lines 57-64): same
allow-list 14, 26, 25, 33, u8 state widened to i32. -/
def wifi_store_pin_write (w : WifiStore) (it : PinWriteItem) : WifiStore :=
  if it.pin_num = 14 then { w with GPIO14_STATE := (it.state : ℤ) }
  else if it.pin_num = 26 then { w with GPIO26_STATE := (it.state : ℤ) }
  else if it.pin_num = 25 then { w with GPIO25_STATE := (it.state : ℤ) }
  else if it.pin_num = 33 then { w with GPIO33_STATE := (it.state : ℤ) }
  else w

/-- The for loop over pin_writes of web.rs lines 57-65, applied in order. -/
def write_pins_loop (w : WifiStore) : List PinWriteItem → WifiStore
  | [] => w
  | it :: rest => write_pins_loop (wifi_store_pin_write w it) rest

/-- write_pins_handler of web.rs lines 56-68: applies the batch in order and
always answers success true. -/
def write_pins_handler (w : WifiStore) (req : PinRequest) : WifiStore × Bool :=
  (write_pins_loop w req.pin_writes, true)

/-- The BLE (u32) and wifi (i32) stores hold the same numeric values. -/
def stores_agree (s : Store) (w : WifiStore) : Prop :=
  (s.GPIO14_STATE : ℤ) = w.GPIO14_STATE ∧
  (s.GPIO26_STATE : ℤ) = w.GPIO26_STATE ∧
  (s.GPIO25_STATE : ℤ) = w.GPIO25_STATE ∧
  (s.GPIO32_STATE : ℤ) = w.GPIO32_STATE ∧
  (s.GPIO35_STATE : ℤ) = w.GPIO35_STATE ∧
  (s.GPIO33_STATE : ℤ) = w.GPIO33_STATE

instance (s : Store) (w : WifiStore) : Decidable (stores_agree s w) := by
  unfold stores_agree
  infer_instance

/-- A batch touching two allow-listed pins and one unknown pin. -/
def sample_batch : List PinWriteItem := [⟨14, 100⟩, ⟨99, 7⟩, ⟨26, 3⟩]

/-- The per-pin slot load of read_pins_handler (web.rs lines 73-81): the six
known pins map to their slots, every other pin number yields 0. -/
def wifi_read_pin (w : WifiStore) (pin : ℕ) : ℤ :=
  if pin = 14 then w.GPIO14_STATE
  else if pin = 26 then w.GPIO26_STATE
  else if pin = 25 then w.GPIO25_STATE
  else if pin = 33 then w.GPIO33_STATE
  else if pin = 32 then w.GPIO32_STATE
  else if pin = 35 then w.GPIO35_STATE
  else 0

/-- The for loop of read_pins_handler (web.rs lines 72-86), pushing one
response entry per requested pin, in order. -/
def read_pins_loop (w : WifiStore) : List ℕ → List (ℕ × ℤ)
  | [] => []
  | p :: rest => (p, wifi_read_pin w p) :: read_pins_loop w rest

/-- read_pins_handler of web.rs lines 70-91: the parallel response list plus
the unconditional success flag. -/
def read_pins_handler (w : WifiStore) (pins : List ℕ) : List (ℕ × ℤ) × Bool :=
  (read_pins_loop w pins, true)

/-- The slot load shared by the digital output and PWM tasks (pin.rs lines
34-40 and 62-68): pins 14, 26, 25, 33 map to their slots, else 0. -/
def load_out_pin_state (s : Store) (pin : ℕ) : ℕ :=
  if pin = 14 then s.GPIO14_STATE
  else if pin = 26 then s.GPIO26_STATE
  else if pin = 25 then s.GPIO25_STATE
  else if pin = 33 then s.GPIO33_STATE
  else 0

/-- The level the digital output driver programs for one pin (pin.rs lines
41-45): high exactly when the slot equals 100. -/
def basic_write_level (s : Store) (pin : ℕ) : Level :=
  if load_out_pin_state s pin = 100 then Level.high else Level.low

/-- One cycle of basic_write_pin_task (pin.rs lines 30-50): the levels
programmed for the owned pins, in allocation order. -/
def basic_write_pin_cycle (s : Store) (pins : List ℕ) : List (ℕ × Level) :=
  pins.map (fun p => (p, basic_write_level s p))

/-- A store whose pin 14 slot holds 100. -/
def store_pin14_high : Store := { initStore with GPIO14_STATE := 100 }

/-- The duty the PWM driver requests for one channel (pin.rs lines 69-71):
the u32 product state * max_duty wraps at 2 ^ 32, the quotient by 100 is then
truncated to u16 by the cast in set_duty_cycle(duty as u16). -/
def pwm_duty (state max_duty : ℕ) : ℕ :=
  (((state * max_duty) % 4294967296) / 100) % 65536

/-- One analog task item (pin.rs lines 106-110): its pin number and whether
each Option-wrapped converter pin handle is present. -/
structure AdcReadPinTaskItem where
  pin_num : ℕ
  gpio35 : Bool
  gpio32 : Bool
deriving DecidableEq

/-- Processing of one item inside one cycle of adc_read_pin_task (pin.rs
lines 120-159).  conv gives the outcome of the blocking one-shot conversion
for a pin within this cycle; none models a conversion error, on which the
continue at lines 126-128 and 141-143 skips the store and moves to the next
item.  A missing handle yields state 0 which the second match stores. -/
def adc_process_item (conv : ℕ → Option ℕ) (s : Store) (it : AdcReadPinTaskItem) : Store :=
  if it.pin_num = 35 then
    if it.gpio35 then
      match conv 35 with
      | none => s
      | some v => { s with GPIO35_STATE := v }
    else { s with GPIO35_STATE := 0 }
  else if it.pin_num = 32 then
    if it.gpio32 then
      match conv 32 with
      | none => s
      | some v => { s with GPIO32_STATE := v }
    else { s with GPIO32_STATE := 0 }
  else s

/-- One full cycle of adc_read_pin_task over its item list, in order. -/
def adc_read_pin_cycle (conv : ℕ → Option ℕ) (s : Store) : List AdcReadPinTaskItem → Store
  | [] => s
  | it :: rest => adc_read_pin_cycle conv (adc_process_item conv s it) rest

/-- An analog task item for pin 35 with its handle present. -/
def adc_item35 : AdcReadPinTaskItem := ⟨35, true, false⟩

/-- A conversion oracle on which every one-shot conversion fails. -/
def failing_conv : ℕ → Option ℕ := fun _ => none

/-- Availability survives the allocator only if it held beforehand: the pool
never regains a handle. -/
theorem alloc_role_final_true (supported : ℕ → Bool) (l : List ℕ) (avail : ℕ → Bool) (n : ℕ)
    (h : (alloc_role supported l avail).2 n = true) : avail n = true := by
  induction l generalizing avail with
  | nil => exact h
  | cons m rest ih =>
    by_cases hc : (supported m && avail m) = true
    · have h2 : (alloc_role supported rest (take_pin avail m)).2 n = true := by
        simpa [alloc_role, hc] using h
      have h3 := ih (take_pin avail m) h2
      by_cases hnm : n = m
      · rw [hnm] at h3
        simp [take_pin] at h3
      · simpa [take_pin, hnm] using h3
    · have h2 : (alloc_role supported rest avail).2 n = true := by
        simpa [alloc_role, hc] using h
      exact ih avail h2

/-- A pin unavailable on entry stays unavailable in the final pool. -/
theorem alloc_role_final_false (supported : ℕ → Bool) (l : List ℕ) (avail : ℕ → Bool) (n : ℕ)
    (h : avail n = false) : (alloc_role supported l avail).2 n = false := by
  cases hfin : (alloc_role supported l avail).2 n
  · rfl
  · have h2 := alloc_role_final_true supported l avail n hfin
    rw [h2] at h
    exact Bool.noConfusion h

/-- A pin in the produced task item list was available on entry. -/
theorem alloc_role_mem_avail (supported : ℕ → Bool) (l : List ℕ) (avail : ℕ → Bool) (n : ℕ)
    (h : n ∈ (alloc_role supported l avail).1) : avail n = true := by
  induction l generalizing avail with
  | nil => simp [alloc_role] at h
  | cons m rest ih =>
    by_cases hc : (supported m && avail m) = true
    · have h2 : n = m ∨ n ∈ (alloc_role supported rest (take_pin avail m)).1 := by
        simpa [alloc_role, hc] using h
      rcases h2 with h2 | h2
      · rw [h2]
        have hc2 : supported m = true ∧ avail m = true := by simpa using hc
        exact hc2.2
      · have h3 := ih (take_pin avail m) h2
        by_cases hnm : n = m
        · rw [hnm] at h3
          simp [take_pin] at h3
        · simpa [take_pin, hnm] using h3
    · have h2 : n ∈ (alloc_role supported rest avail).1 := by
        simpa [alloc_role, hc] using h
      exact ih avail h2

/-- A pin in the produced task item list is claimed in the final pool. -/
theorem alloc_role_mem_final (supported : ℕ → Bool) (l : List ℕ) (avail : ℕ → Bool) (n : ℕ)
    (h : n ∈ (alloc_role supported l avail).1) :
    (alloc_role supported l avail).2 n = false := by
  induction l generalizing avail with
  | nil => simp [alloc_role] at h
  | cons m rest ih =>
    by_cases hc : (supported m && avail m) = true
    · have h2 : n = m ∨ n ∈ (alloc_role supported rest (take_pin avail m)).1 := by
        simpa [alloc_role, hc] using h
      have hgoal : (alloc_role supported (m :: rest) avail).2 =
          (alloc_role supported rest (take_pin avail m)).2 := by
        simp [alloc_role, hc]
      rw [hgoal]
      rcases h2 with h2 | h2
      · rw [h2]
        exact alloc_role_final_false supported rest (take_pin avail m) m (by simp [take_pin])
      · exact ih (take_pin avail m) h2
    · have h2 : n ∈ (alloc_role supported rest avail).1 := by
        simpa [alloc_role, hc] using h
      have hgoal : (alloc_role supported (m :: rest) avail).2 =
          (alloc_role supported rest avail).2 := by
        simp [alloc_role, hc]
      rw [hgoal]
      exact ih avail h2

/-- C1: for every start-up configuration, the allocator of main.rs lines
86-219 processes the role lists in the fixed order digital output, digital
input, PWM output, analog input over one shared pool of peripheral handles,
and a pin number claimed by an earlier category never appears in the task
item list (which is the active pin set of that role) of any later category:
each physical pin number is assigned to at most one role. -/
theorem allocation_exclusive (cfg : Config) (n : ℕ) :
    (n ∈ (allocate cfg).basic_write_pins →
      n ∉ (allocate cfg).basic_read_pins ∧ n ∉ (allocate cfg).pwm_write_pins ∧
        n ∉ (allocate cfg).adc_read_pins) ∧
    (n ∈ (allocate cfg).basic_read_pins →
      n ∉ (allocate cfg).pwm_write_pins ∧ n ∉ (allocate cfg).adc_read_pins) ∧
    (n ∈ (allocate cfg).pwm_write_pins → n ∉ (allocate cfg).adc_read_pins) := by
  simp only [allocate]
  refine ⟨?_, ?_, ?_⟩
  · intro hbw
    have h1 : (stage_basic_write cfg).2 n = false :=
      alloc_role_mem_final out_supported cfg.basic_write_pin_nums initial_avail n hbw
    have h2 : (stage_basic_read cfg).2 n = false :=
      alloc_role_final_false out_supported cfg.basic_read_pin_nums (stage_basic_write cfg).2 n h1
    have h3 : (stage_pwm_write cfg).2 n = false :=
      alloc_role_final_false out_supported cfg.pwm_write_pin_nums (stage_basic_read cfg).2 n h2
    refine ⟨?_, ?_, ?_⟩
    · intro hbr
      have h4 : (stage_basic_write cfg).2 n = true :=
        alloc_role_mem_avail out_supported cfg.basic_read_pin_nums (stage_basic_write cfg).2 n hbr
      rw [h1] at h4
      exact Bool.noConfusion h4
    · intro hpw
      have h4 : (stage_basic_read cfg).2 n = true :=
        alloc_role_mem_avail out_supported cfg.pwm_write_pin_nums (stage_basic_read cfg).2 n hpw
      rw [h2] at h4
      exact Bool.noConfusion h4
    · intro hadc
      have h4 : (stage_pwm_write cfg).2 n = true :=
        alloc_role_mem_avail adc_supported cfg.adc_read_pin_nums (stage_pwm_write cfg).2 n hadc
      rw [h3] at h4
      exact Bool.noConfusion h4
  · intro hbr
    have h1 : (stage_basic_read cfg).2 n = false :=
      alloc_role_mem_final out_supported cfg.basic_read_pin_nums (stage_basic_write cfg).2 n hbr
    have h2 : (stage_pwm_write cfg).2 n = false :=
      alloc_role_final_false out_supported cfg.pwm_write_pin_nums (stage_basic_read cfg).2 n h1
    refine ⟨?_, ?_⟩
    · intro hpw
      have h4 : (stage_basic_read cfg).2 n = true :=
        alloc_role_mem_avail out_supported cfg.pwm_write_pin_nums (stage_basic_read cfg).2 n hpw
      rw [h1] at h4
      exact Bool.noConfusion h4
    · intro hadc
      have h4 : (stage_pwm_write cfg).2 n = true :=
        alloc_role_mem_avail adc_supported cfg.adc_read_pin_nums (stage_pwm_write cfg).2 n hadc
      rw [h2] at h4
      exact Bool.noConfusion h4
  · intro hpw
    have h1 : (stage_pwm_write cfg).2 n = false :=
      alloc_role_mem_final out_supported cfg.pwm_write_pin_nums (stage_basic_read cfg).2 n hpw
    intro hadc
    have h4 : (stage_pwm_write cfg).2 n = true :=
      alloc_role_mem_avail adc_supported cfg.adc_read_pin_nums (stage_pwm_write cfg).2 n hadc
    rw [h1] at h4
    exact Bool.noConfusion h4

/-- C1 witness: on the configuration requesting pin 14 for the digital
output, digital input and PWM roles at once, pin 14 lands in the digital
output items and in no later list. -/
theorem allocation_exclusive_witness :
    14 ∈ (allocate dup_pin_config).basic_write_pins ∧
    (14 ∉ (allocate dup_pin_config).basic_read_pins ∧
      14 ∉ (allocate dup_pin_config).pwm_write_pins ∧
      14 ∉ (allocate dup_pin_config).adc_read_pins) :=
  ⟨by decide, (allocation_exclusive dup_pin_config 14).1 (by decide)⟩

/-- C2 counterexample: a write event whose payload is valid UTF-8 but fails
JSON parsing is a GATT write event, yet the handler issues 0 explicit
acknowledgments for it and goes on to the next event: the continue at ble.rs
line 183 jumps to the next iteration before the accept and send at lines
212-218.  This refutes the claim that every read or write event is replied
to exactly once on every code path including parse failure. -/
theorem gatt_reply_discipline_counterexample :
    is_gatt_read_write (GattConnectionEvent.gattWrite GattWritePayload.badJson) = true ∧
    gatt_events_step initStore (GattConnectionEvent.gattWrite GattWritePayload.badJson) =
      GattStep.next initStore 0 ∧
    gatt_events_step initStore (GattConnectionEvent.gattWrite GattWritePayload.badJson) ≠
      GattStep.next initStore 1 := by
  decide

/-- C2 amended: each GATT read or write event is explicitly acknowledged
exactly once before the next event is processed, with exactly three
exception paths: a write whose payload is valid UTF-8 but fails JSON parsing
is processed with zero explicit acknowledgments and the loop continues
(relying on the implicit accept at drop, which by the comment at ble.rs
lines 210-211 does not ensure the reply is sent); a read whose
attribute-table lookup fails ends the task through the question-mark
operator with zero acknowledgments; a non-UTF-8 write payload panics.
Every other read or write event yields exactly one acknowledgment and the
loop continues. -/
theorem gatt_reply_discipline_amended (s : Store) (e : GattConnectionEvent)
    (hrw : is_gatt_read_write e = true) :
    (is_bad_json_write e = true → gatt_events_step s e = GattStep.next s 0) ∧
    (is_failed_get_read e = true → gatt_events_step s e = GattStep.errorReturn s) ∧
    (is_not_utf8_write e = true → gatt_events_step s e = GattStep.halted) ∧
    (is_bad_json_write e = false → is_failed_get_read e = false →
      is_not_utf8_write e = false →
      ∃ s2, gatt_events_step s e = GattStep.next s2 1) := by
  cases e with
  | disconnected reason => exact Bool.noConfusion hrw
  | gattRead target get_ok =>
    cases target <;> cases get_ok <;>
      simp [gatt_events_step, is_bad_json_write, is_failed_get_read, is_not_utf8_write]
  | gattWrite payload =>
    cases payload <;>
      simp [gatt_events_step, is_bad_json_write, is_failed_get_read, is_not_utf8_write]
  | gattUnknown => exact Bool.noConfusion hrw
  | otherEvent => exact Bool.noConfusion hrw

/-- C2 amended witness: a read of the pin-data-output characteristic whose
attribute-table lookup fails ends the task with zero acknowledgments. -/
theorem gatt_reply_discipline_amended_witness :
    is_gatt_read_write (GattConnectionEvent.gattRead ReadTarget.pinDataOutput false) = true ∧
    is_failed_get_read (GattConnectionEvent.gattRead ReadTarget.pinDataOutput false) = true ∧
    gatt_events_step initStore (GattConnectionEvent.gattRead ReadTarget.pinDataOutput false) =
      GattStep.errorReturn initStore :=
  ⟨by decide, by decide,
    (gatt_reply_discipline_amended initStore
      (GattConnectionEvent.gattRead ReadTarget.pinDataOutput false) (by decide)).2.1
      (by decide)⟩

/-- C3 counterexample: a write whose payload is not valid UTF-8 makes the
handler panic (ble.rs line 203), modelled as the halted result; the claim
says such a payload is dropped without terminating the session. -/
theorem write_reject_no_panic_counterexample :
    gatt_events_step initStore (GattConnectionEvent.gattWrite GattWritePayload.notUtf8) =
      GattStep.halted := by
  decide

/-- C3 amended: a write payload that is valid UTF-8 but does not match the
expected JSON schema is dropped without mutating any state slot and without
terminating the session (the loop continues to the next event), while a
write payload that is not valid UTF-8 makes the handler panic. -/
theorem write_reject_amended (s : Store) :
    gatt_events_step s (GattConnectionEvent.gattWrite GattWritePayload.badJson) =
      GattStep.next s 0 ∧
    gatt_events_step s (GattConnectionEvent.gattWrite GattWritePayload.notUtf8) =
      GattStep.halted :=
  ⟨rfl, rfl⟩

/-- Applying one batch entry preserves numeric agreement of the BLE and wifi
stores: both handlers use the allow-list 14, 26, 25, 33 and write the same
u8 value (widened to u32 and to i32 respectively). -/
theorem store_pin_write_agree (s : Store) (w : WifiStore) (it : PinWriteItem)
    (h : stores_agree s w) :
    stores_agree (ble_store_pin_write s it) (wifi_store_pin_write w it) := by
  obtain ⟨h14, h26, h25, h32, h35, h33⟩ := h
  unfold stores_agree ble_store_pin_write wifi_store_pin_write
  by_cases e14 : it.pin_num = 14
  · simp [e14, h26, h25, h32, h35, h33]
  · by_cases e26 : it.pin_num = 26
    · simp [e14, e26, h14, h25, h32, h35, h33]
    · by_cases e25 : it.pin_num = 25
      · simp [e14, e26, e25, h14, h26, h32, h35, h33]
      · by_cases e33 : it.pin_num = 33
        · simp [e14, e26, e25, e33, h14, h26, h25, h32, h35]
        · simp [e14, e26, e25, e33, h14, h26, h25, h32, h35, h33]

/-- C4: for every batch of pin writes, the BLE command characteristic
handler (ble.rs lines 186-201) and the network write-pins handler (web.rs
lines 56-68) produce identical store mutations: both iterate the batch in
order, write the value to the slot for pin numbers in the allow-list 14, 26,
25, 33, and ignore every other pin number; numeric agreement of the two
stores is preserved. -/
theorem transport_write_equivalence (batch : List PinWriteItem) (s : Store) (w : WifiStore)
    (h : stores_agree s w) :
    stores_agree (ble_write_pins s batch) ((write_pins_handler w ⟨batch⟩).1) := by
  induction batch generalizing s w with
  | nil => exact h
  | cons it rest ih =>
    exact ih (ble_store_pin_write s it) (wifi_store_pin_write w it)
      (store_pin_write_agree s w it h)

/-- C4 witness: starting from the all-zero stores, applying a batch touching
pins 14, 99 and 26 through either transport leaves agreeing stores. -/
theorem transport_write_equivalence_witness :
    stores_agree initStore initWifiStore ∧
    stores_agree (ble_write_pins initStore sample_batch)
      ((write_pins_handler initWifiStore ⟨sample_batch⟩).1) :=
  ⟨by decide, transport_write_equivalence sample_batch initStore initWifiStore (by decide)⟩

/-- C5: for a PWM channel with maximum duty cycle M (a u16) and a stored
duty slot value d at most 100, one cycle of pwm_write_pin_task requests the
programmed duty floor (d * M / 100): neither the u32 product nor the u16
cast truncates in this range. -/
theorem pwm_duty_mapping (d M : ℕ) (hd : d ≤ 100) (hM : M < 65536) :
    pwm_duty d M = d * M / 100 := by
  have h1 : d * M ≤ 100 * 65535 := Nat.mul_le_mul hd (by omega)
  have h1b : d * M < 4294967296 := lt_of_le_of_lt h1 (by norm_num)
  have h3 : d * M / 100 ≤ 100 * M / 100 := Nat.div_le_div_right (mul_le_mul_right' hd M)
  rw [Nat.mul_div_cancel_left M (by norm_num : (0:ℕ) < 100)] at h3
  have h4 : d * M / 100 < 65536 := lt_of_le_of_lt h3 hM
  unfold pwm_duty
  rw [Nat.mod_eq_of_lt h1b, Nat.mod_eq_of_lt h4]

/-- C5 witness: duty 50 on a 12-bit channel with maximum duty 4096 requests
floor (50 * 4096 / 100) = 2048. -/
theorem pwm_duty_mapping_witness :
    50 ≤ 100 ∧ 4096 < 65536 ∧ pwm_duty 50 4096 = 50 * 4096 / 100 :=
  ⟨by decide, by decide, pwm_duty_mapping 50 4096 (by decide) (by decide)⟩

/-- C6: contrary to the documented fixed capacity of 8 pin writes (comment
on ble.rs line 24), pin_writes is an unbounded alloc Vec and the handler
never checks its length: a nine-entry batch is parsed and applied in full,
mutating the pin 14 slot to the last value and acknowledging the event,
instead of being rejected with no slot mutated. -/
theorem overlong_batch_applied :
    nine_writes.length = 9 ∧
    gatt_events_step initStore
        (GattConnectionEvent.gattWrite (GattWritePayload.parsed ⟨nine_writes⟩)) =
      GattStep.next { initStore with GPIO14_STATE := 9 } 1 := by
  decide

/-- C7: in one cycle of basic_write_pin_task, the level programmed for an
owned pin is high exactly when its stored slot value equals 100 (pin.rs
lines 29-50); every other value programs low. -/
theorem basic_write_level_spec (s : Store) (pins : List ℕ) (p : ℕ) (l : Level)
    (h : (p, l) ∈ basic_write_pin_cycle s pins) :
    l = Level.high ↔ load_out_pin_state s p = 100 := by
  rcases List.mem_map.mp h with ⟨q, hq, heq⟩
  have hp : q = p := congrArg Prod.fst heq
  have hl : basic_write_level s q = l := congrArg Prod.snd heq
  rw [← hp, ← hl]
  unfold basic_write_level
  by_cases h100 : load_out_pin_state s q = 100
  · simp [h100]
  · simp [h100]

/-- C7 witness: with the pin 14 slot at 100, the cycle over the single owned
pin 14 programs high, and high corresponds to the slot value 100. -/
theorem basic_write_level_spec_witness :
    (14, Level.high) ∈ basic_write_pin_cycle store_pin14_high [14] ∧
    (Level.high = Level.high ↔ load_out_pin_state store_pin14_high 14 = 100) :=
  ⟨by decide, basic_write_level_spec store_pin14_high [14] 14 Level.high (by decide)⟩

/-- C8: if the one-shot conversion for an analog pin fails, processing that
item leaves the store (hence every slot) unchanged, and the cycle proceeds
directly to the remaining items with no retry of the failed pin within the
same cycle (pin.rs lines 112-164); the conversion oracle is consulted once
per item per cycle. -/
theorem adc_conversion_failure_frame (conv : ℕ → Option ℕ) (s : Store)
    (it : AdcReadPinTaskItem) (rest : List AdcReadPinTaskItem)
    (hpin : it.pin_num = 35 ∨ it.pin_num = 32)
    (h35 : it.pin_num = 35 → it.gpio35 = true)
    (h32 : it.pin_num = 32 → it.gpio32 = true)
    (hfail : conv it.pin_num = none) :
    adc_process_item conv s it = s ∧
    adc_read_pin_cycle conv s (it :: rest) = adc_read_pin_cycle conv s rest := by
  have hstep : adc_process_item conv s it = s := by
    rcases hpin with h | h
    · rw [h] at hfail
      simp [adc_process_item, h, h35 h, hfail]
    · rw [h] at hfail
      simp [adc_process_item, h, h32 h, hfail]
  exact ⟨hstep, by simp [adc_read_pin_cycle, hstep]⟩

/-- C8 witness: a failed conversion on pin 35 leaves the all-zero store
untouched and the cycle continues as if the item were absent. -/
theorem adc_conversion_failure_frame_witness :
    adc_process_item failing_conv initStore adc_item35 = initStore ∧
    adc_read_pin_cycle failing_conv initStore [adc_item35] =
      adc_read_pin_cycle failing_conv initStore [] :=
  adc_conversion_failure_frame failing_conv initStore adc_item35 []
    (Or.inl rfl) (fun _ => rfl) (fun h2 => absurd h2 (by decide)) rfl

/-- The response list is the in-order image of the requested pins. -/
theorem read_pins_loop_eq_map (w : WifiStore) (pins : List ℕ) :
    read_pins_loop w pins = pins.map (fun p => (p, wifi_read_pin w p)) := by
  induction pins with
  | nil => rfl
  | cons p rest ih => simp [read_pins_loop, ih]

/-- C9: for every requested pin list, read_pins_handler (web.rs lines 70-91)
returns success true together with the parallel list, of the same length and
order, pairing each requested pin number with its current slot value; any
pin number outside the known set 14, 26, 25, 33, 32, 35 yields value 0. -/
theorem read_pins_handler_spec (w : WifiStore) (pins : List ℕ) (p : ℕ)
    (hp : p ≠ 14 ∧ p ≠ 26 ∧ p ≠ 25 ∧ p ≠ 33 ∧ p ≠ 32 ∧ p ≠ 35) :
    (read_pins_handler w pins).2 = true ∧
    (read_pins_handler w pins).1 = pins.map (fun q => (q, wifi_read_pin w q)) ∧
    wifi_read_pin w p = 0 := by
  obtain ⟨h14, h26, h25, h33, h32, h35⟩ := hp
  exact ⟨rfl, read_pins_loop_eq_map w pins,
    by simp [wifi_read_pin, h14, h26, h25, h33, h32, h35]⟩

/-- C9 witness: requesting pins 14 and 99 yields the two-entry parallel
list, success true, and value 0 for the unknown pin 99. -/
theorem read_pins_handler_spec_witness :
    (read_pins_handler initWifiStore [14, 99]).2 = true ∧
    (read_pins_handler initWifiStore [14, 99]).1 =
      [14, 99].map (fun q => (q, wifi_read_pin initWifiStore q)) ∧
    wifi_read_pin initWifiStore 99 = 0 :=
  read_pins_handler_spec initWifiStore [14, 99] 99 (by decide)

/-- C10 counterexample: the requested duty is not strictly greater than M
for every stored d above 100: at d = 255 and M = 65535 the u16 cast wraps
the 32-bit quotient 167114 to 36042, which is below M.  (At small M the
claim also fails without wrap-around, for example d = 150, M = 1.) -/
theorem pwm_duty_no_clamp_counterexample :
    100 < 255 ∧ pwm_duty 255 65535 = 36042 ∧ ¬ 65535 < pwm_duty 255 65535 := by
  decide

/-- C10 amended: the driver requests duty (d * M / 100) truncated to 16
bits with no clamp to M, and for every stored u8 value d above 100 the
requested duty is strictly greater than M provided M is at least 100 and the
32-bit quotient d * M / 100 fits in 16 bits (so the final u16 cast does not
wrap). -/
theorem pwm_duty_no_clamp_amended (d M : ℕ) (hd1 : 100 < d) (hd2 : d ≤ 255)
    (hM1 : 100 ≤ M) (hM2 : M < 65536) (hnw : d * M / 100 < 65536) :
    pwm_duty d M = d * M / 100 ∧ M < pwm_duty d M := by
  have h1 : d * M ≤ 255 * 65535 := Nat.mul_le_mul hd2 (by omega)
  have h1b : d * M < 4294967296 := lt_of_le_of_lt h1 (by norm_num)
  have heq : pwm_duty d M = d * M / 100 := by
    unfold pwm_duty
    rw [Nat.mod_eq_of_lt h1b, Nat.mod_eq_of_lt hnw]
  refine ⟨heq, ?_⟩
  rw [heq]
  have h101 : 101 * M ≤ d * M := Nat.mul_le_mul_right M (by omega)
  have hA : (M + 1) * 100 ≤ 101 * M := by omega
  have hB : M + 1 ≤ d * M / 100 :=
    (Nat.le_div_iff_mul_le (by norm_num : (0:ℕ) < 100)).mpr (le_trans hA h101)
  omega

/-- C10 amended witness: with the 12-bit maximum duty 4096 and stored value
255, the requested duty 10444 exceeds the maximum duty cycle. -/
theorem pwm_duty_no_clamp_amended_witness :
    pwm_duty 255 4096 = 255 * 4096 / 100 ∧ 4096 < pwm_duty 255 4096 :=
  pwm_duty_no_clamp_amended 255 4096 (by decide) (by decide) (by decide) (by decide)
    (by decide)

end Esp32
